import Mathlib

/-!
Shallow embedding of `unko.py`, a Telegram topic-forwarding bot.

The bot watches one group (`GROUP_ID`) and one topic (`HAUPTGRUPPE_TOPIC_ID`).
Messages containing the markers `#biete` / `#suche` (case-insensitive substring
search on the lowercased text) are forwarded to the corresponding topics; the
set of destination topics is remembered per user for a time window so that
marker-less follow-up messages are forwarded to the same topics.

Outbound Telegram API calls are modelled by a failure oracle
`F : SendReq → Bool` (`true` = the call raises); the embedding records every
attempted call together with its outcome, and mirrors the `try/except` blocks
of the source: a caught failure is recorded and processing continues, an
uncaught one surfaces as `Except.error`.
-/

namespace Unko

/-- Static configuration: `GROUP_ID`, the three topic ids and
`CONTEXT_TIME_WINDOW_MINUTES` from the environment. -/
structure Config where
  groupId : Int
  hauptTopicId : Int
  bieteTopicId : Int
  sucheTopicId : Int
  window : Nat
deriving DecidableEq

/-- The default values hard-coded in `unko.py`. -/
def defaultConfig : Config :=
  { groupId := -1003356712572
    hauptTopicId := 2
    bieteTopicId := 3
    sucheTopicId := 4
    window := 5 }

/-- `message.from_user`: numeric id plus display name. -/
structure User where
  id : Int
  firstName : String
deriving DecidableEq

/-- The fields of a Telegram message that `unko.py` reads.  `photo` is a list
of sizes (the code sends the last element); the other media fields carry an
optional file id. -/
structure Message where
  chatId : Int
  threadId : Option Int
  fromUser : Option User
  text : Option String
  caption : Option String
  photo : List String
  video : Option String
  document : Option String
  audio : Option String
  voice : Option String
  videoNote : Option String
  sticker : Option String
deriving DecidableEq

/-- Python `a or b` on an optional string and a default (empty strings are
falsy). -/
def pyOrStr (a : Option String) (b : String) : String :=
  match a with
  | none => b
  | some s => if s = "" then b else s

/-- Line 240: `text = message.text or message.caption or ""`. -/
def msgText (m : Message) : String :=
  pyOrStr m.text (pyOrStr m.caption "")

/-- Truthiness of `message.caption` (non-`None` and non-empty). -/
def hasCaption (m : Message) : Bool :=
  match m.caption with
  | none => false
  | some s => s ≠ ""

/-- Lines 258-266: `has_media = any([...])` over the seven media fields. -/
def has_media (m : Message) : Bool :=
  !m.photo.isEmpty || m.video.isSome || m.document.isSome || m.audio.isSome ||
    m.voice.isSome || m.videoNote.isSome || m.sticker.isSome

/-- Python `str.lower()`, modelled characterwise. -/
def lowerChars (l : List Char) : List Char :=
  l.map Char.toLower

/-- `a.isPrefixOf b` written out: does `hay` start with `needle`? -/
def leadsWith : List Char → List Char → Bool
  | [], _ => true
  | _ :: _, [] => false
  | a :: as, b :: bs => a = b && leadsWith as bs

/-- Python `needle in hay` substring test. -/
def subIn (needle : List Char) : List Char → Bool
  | [] => needle.isEmpty
  | b :: bs => leadsWith needle (b :: bs) || subIn needle bs

/-- Python whitespace for `str.strip()`. -/
def isSpaceChar (c : Char) : Bool :=
  c = ' ' || c = '\t' || c = '\n' || c = '\r' || c = '\x0b' || c = '\x0c'

/-- Python `s.strip()`. -/
def pyStrip (l : List Char) : List Char :=
  ((l.dropWhile isSpaceChar).reverse.dropWhile isSpaceChar).reverse

/-- Truthiness of `text.strip()`. -/
def stripTruthy (s : String) : Bool :=
  !(pyStrip s.toList).isEmpty

/-- Lines 270-282: build `target_topics` by checking `"#biete"` then
`"#suche"` against the lowercased text. -/
def classify (cfg : Config) (text : String) : List Int :=
  (if subIn "#biete".toList (lowerChars text.toList) then [cfg.bieteTopicId]
    else []) ++
    (if subIn "#suche".toList (lowerChars text.toList) then [cfg.sucheTopicId]
      else [])

/-- One context entry: `{"topics": [...], "timestamp": ...}`.  Time is an
abstract clock measured in the same unit as `Config.window`. -/
structure CtxEntry where
  topics : List Int
  timestamp : Nat
deriving DecidableEq

/-- The global dict `user_forwarding_context`. -/
abbrev Store := Int → Option CtxEntry

/-- The empty context store. -/
def emptyStore : Store := fun _ => none

/-- Lines 75-94: return the active topics for a user, lazily deleting an
expired entry.  Returns the topics together with the store after the call. -/
def get_active_topics_for_user (cfg : Config) (s : Store) (user_id : Int)
    (now : Nat) : List Int × Store :=
  match s user_id with
  | none => ([], s)
  | some e =>
    if cfg.window < now - e.timestamp then
      ([], fun v => if v = user_id then none else s v)
    else
      (e.topics, s)

/-- Lines 96-104: unconditionally overwrite the user's entry. -/
def update_user_context (s : Store) (user_id : Int) (topics : List Int)
    (now : Nat) : Store :=
  fun v => if v = user_id then some ⟨topics, now⟩ else s v

/-- Line 252: `user_link = f"[{user.first_name}](tg://user?id={user.id})"`. -/
def userLink (u : User) : String :=
  "[" ++ u.firstName ++ "](tg://user?id=" ++ toString u.id ++ ")"

/-- Lines 118-120: the caption used for forwarded media — attribution header,
extended with the original caption when the message has one. -/
def captionText (m : Message) (user_link : String) : String :=
  let base := "📨 Von " ++ user_link
  match m.caption with
  | none => base
  | some c => if c ≠ "" then base ++ ":\n\n" ++ c else base

/-- One outbound Telegram API call. -/
inductive SendPayload where
  | text (body : String)
  | photo (fileId : String) (caption : String)
  | video (fileId : String) (caption : String)
  | document (fileId : String) (caption : String)
  | audio (fileId : String) (caption : String)
  | voice (fileId : String) (caption : String)
  | videoNote (fileId : String)
  | sticker (fileId : String)
deriving DecidableEq

/-- A send request: target chat, target topic, payload. -/
structure SendReq where
  chatId : Int
  threadId : Int
  payload : SendPayload
deriving DecidableEq

/-- The uncaught Python exceptions the handler can raise. -/
inductive PyError where
  | attributeError
deriving DecidableEq

/-- Lines 122-203, the `if/elif` chain over the media fields: which payload
would be sent, in the source's priority order (`photo` takes the last size;
caption-capable kinds carry `caption_text`). -/
def mediaPayload (m : Message) (cap : String) : Option SendPayload :=
  match m.photo.getLast? with
  | some p => some (.photo p cap)
  | none =>
  match m.video with
  | some v => some (.video v cap)
  | none =>
  match m.document with
  | some d => some (.document d cap)
  | none =>
  match m.audio with
  | some a => some (.audio a cap)
  | none =>
  match m.voice with
  | some v => some (.voice v cap)
  | none =>
  match m.videoNote with
  | some v => some (.videoNote v)
  | none =>
  match m.sticker with
  | some s => some (.sticker s)
  | none => none

/-- Lines 106-206, `forward_media_to_topic`: send the media payload; for
`video_note` a follow-up text always (when the payload send succeeded), for
`sticker` a follow-up text only when the message has a caption.  The whole
body is wrapped in `try/except`, so a failing payload send aborts only the
remainder of this one call. -/
def forward_media_to_topic (cfg : Config) (F : SendReq → Bool) (m : Message)
    (topic_id : Int) (user_link : String) : List (SendReq × Bool) :=
  match mediaPayload m (captionText m user_link) with
  | none => []
  | some p =>
    match p with
    | .videoNote _ =>
      if F ⟨cfg.groupId, topic_id, p⟩ then
        [(⟨cfg.groupId, topic_id, p⟩, F ⟨cfg.groupId, topic_id, p⟩)]
      else
        [(⟨cfg.groupId, topic_id, p⟩, F ⟨cfg.groupId, topic_id, p⟩),
          (⟨cfg.groupId, topic_id, .text (captionText m user_link)⟩,
            F ⟨cfg.groupId, topic_id, .text (captionText m user_link)⟩)]
    | .sticker _ =>
      if F ⟨cfg.groupId, topic_id, p⟩ then
        [(⟨cfg.groupId, topic_id, p⟩, F ⟨cfg.groupId, topic_id, p⟩)]
      else
        (⟨cfg.groupId, topic_id, p⟩, F ⟨cfg.groupId, topic_id, p⟩) ::
          (if hasCaption m then
            [(⟨cfg.groupId, topic_id, .text (captionText m user_link)⟩,
              F ⟨cfg.groupId, topic_id, .text (captionText m user_link)⟩)]
          else [])
    | _ => [(⟨cfg.groupId, topic_id, p⟩, F ⟨cfg.groupId, topic_id, p⟩)]

/-- The text send of lines 294-299 / 326-331. -/
def mainTextReq (cfg : Config) (m : Message) (user_link : String) (t : Int) :
    SendReq :=
  ⟨cfg.groupId, t, .text ("📨 Von " ++ user_link ++ ":\n\n" ++ msgText m)⟩

/-- The dispatch block shared by lines 288-307 and 320-339: a text send per
destination when the text is non-blank (each in its own `try/except`),
followed by the media forward per destination when media is present. -/
def dispatchEvents (cfg : Config) (F : SendReq → Bool) (m : Message)
    (user_link : String) (dests : List Int) : List (SendReq × Bool) :=
  (if stripTruthy (msgText m) then
    dests.map fun t =>
      (mainTextReq cfg m user_link t, F (mainTextReq cfg m user_link t))
  else []) ++
    (if has_media m then
      dests.flatMap fun t => forward_media_to_topic cfg F m t user_link
    else [])

/-- Lines 208-344, `handle_message`: ingress checks, classification, dispatch
and context update.  Returns the attempted sends and the new store, or the
uncaught exception. -/
def handle_message (cfg : Config) (F : SendReq → Bool) (msg : Option Message)
    (store : Store) (now : Nat) :
    Except PyError (List (SendReq × Bool) × Store) :=
  match msg with
  | none => .ok ([], store)
  | some m =>
    if m.chatId ≠ cfg.groupId then .ok ([], store)
    else if m.threadId ≠ some cfg.hauptTopicId then .ok ([], store)
    else
      match m.fromUser with
      | none => .error .attributeError
      | some user =>
        let user_link := userLink user
        let text := msgText m
        let target_topics := classify cfg text
        if !target_topics.isEmpty then
          .ok (dispatchEvents cfg F m user_link target_topics,
            update_user_context store user.id target_topics now)
        else if has_media m || stripTruthy text then
          let res := get_active_topics_for_user cfg store user.id now
          if !res.1.isEmpty then
            .ok (dispatchEvents cfg F m user_link res.1, res.2)
          else
            .ok ([], res.2)
        else
          .ok ([], store)

/-- The attempted sends of a run (empty when the handler raised). -/
def routeEvents (cfg : Config) (F : SendReq → Bool) (msg : Option Message)
    (store : Store) (now : Nat) : List (SendReq × Bool) :=
  match handle_message cfg F msg store now with
  | .ok (evs, _) => evs
  | .error _ => []

/-- A message with no media and all payload fields empty, for tests. -/
def bareMsg (chatId : Int) (threadId : Option Int) (fromUser : Option User)
    (text caption : Option String) : Message :=
  { chatId := chatId
    threadId := threadId
    fromUser := fromUser
    text := text
    caption := caption
    photo := []
    video := none
    document := none
    audio := none
    voice := none
    videoNote := none
    sticker := none }

example : classify defaultConfig "Ich #biete etwas" = [3] := by decide

example : classify defaultConfig "#SUCHE und #biete" = [3, 4] := by decide

example : classify defaultConfig "hallo" = [] := by decide

example :
    handle_message defaultConfig (fun _ => false)
      (some (bareMsg (-1003356712572) (some 2) (some ⟨7, "A"⟩)
        (some "#biete Rad") none)) emptyStore 0 =
    .ok ([(⟨-1003356712572, 3,
      .text "📨 Von [A](tg://user?id=7):\n\n#biete Rad"⟩, false)],
      update_user_context emptyStore 7 [3] 0) := by
  rfl

theorem leadsWith_iff (n : List Char) : ∀ h : List Char,
    leadsWith n h = true ↔ ∃ t, n ++ t = h := by
  induction n with
  | nil => intro h; simp [leadsWith]
  | cons a as ih =>
    intro h
    cases h with
    | nil =>
      simp [leadsWith]
    | cons b bs =>
      simp only [leadsWith, Bool.and_eq_true, decide_eq_true_eq, ih bs]
      constructor
      · rintro ⟨hab, t, ht⟩
        exact ⟨t, by simp [hab, ht]⟩
      · rintro ⟨t, ht⟩
        injection ht with h1 h2
        exact ⟨h1, t, h2⟩

/-- Correctness of the Python substring test: `subIn n h` is true exactly
when `n` occurs contiguously inside `h`. -/
theorem subIn_iff (n : List Char) : ∀ h : List Char,
    subIn n h = true ↔ ∃ pre post, pre ++ n ++ post = h := by
  intro h
  induction h with
  | nil =>
    simp only [subIn, List.isEmpty_iff]
    constructor
    · rintro rfl; exact ⟨[], [], rfl⟩
    · rintro ⟨pre, post, hp⟩
      rcases List.append_eq_nil.mp hp with ⟨h1, h2⟩
      exact (List.append_eq_nil.mp h1).2
  | cons b bs ih =>
    simp only [subIn, Bool.or_eq_true, leadsWith_iff, ih]
    constructor
    · rintro (⟨t, ht⟩ | ⟨pre, post, hp⟩)
      · exact ⟨[], t, ht⟩
      · exact ⟨b :: pre, post, by simp [hp]⟩
    · rintro ⟨pre, post, hp⟩
      cases pre with
      | nil => exact Or.inl ⟨post, by simpa using hp⟩
      | cons p ps =>
        injection hp with h1 h2
        exact Or.inr ⟨ps, post, h2⟩

theorem toNat_ofNat_small {n : Nat} (h : n < 0xd800) :
    (Char.ofNat n).toNat = n := by
  have hv : n.isValidChar := Or.inl h
  rw [Char.ofNat, dif_pos hv]
  rfl

/-- `Char.toLower` maps no character onto `'#'` except `'#'` itself. -/
theorem toLower_eq_hash {c : Char} (h : c.toLower = '#') : c = '#' := by
  by_cases hc : c.toNat ≥ 65 ∧ c.toNat ≤ 90
  · exfalso
    have hl : c.toLower = Char.ofNat (c.toNat + 32) := by
      unfold Char.toLower
      exact if_pos hc
    have h1 : (Char.ofNat (c.toNat + 32)).toNat = ('#' : Char).toNat := by
      rw [← hl, h]
    rw [toNat_ofNat_small (by omega)] at h1
    have h2 : ('#' : Char).toNat = 35 := rfl
    omega
  · have hl : c.toLower = c := by
      unfold Char.toLower
      exact if_neg hc
    rw [hl] at h
    exact h

theorem hash_mem_of_mem_lower {l : List Char} (h : '#' ∈ lowerChars l) :
    '#' ∈ l := by
  unfold lowerChars at h
  rcases List.mem_map.mp h with ⟨c, hc, hlc⟩
  rwa [toLower_eq_hash hlc] at hc

theorem mem_of_subIn {n h : List Char} {c : Char} (hs : subIn n h = true)
    (hc : c ∈ n) : c ∈ h := by
  rcases (subIn_iff n h).mp hs with ⟨pre, post, hp⟩
  rw [← hp]
  simp [hc]

/-- A list containing a non-whitespace character does not strip to empty. -/
theorem pyStrip_ne_nil {l : List Char} {c : Char} (hc : c ∈ l)
    (hsp : isSpaceChar c = false) : pyStrip l ≠ [] := by
  intro h
  unfold pyStrip at h
  rw [List.reverse_eq_nil_iff, List.dropWhile_eq_nil_iff] at h
  have hcd : c ∈ l.dropWhile isSpaceChar := by
    rcases (List.mem_append.mp
      (by rw [List.takeWhile_append_dropWhile]; exact hc :
        c ∈ l.takeWhile isSpaceChar ++ l.dropWhile isSpaceChar)) with h1 | h1
    · exact absurd (List.mem_takeWhile_imp h1) (by simp [hsp])
    · exact h1
  have := h c (List.mem_reverse.mpr hcd)
  simp [hsp] at this

/-- A text that matched a marker is non-blank: `text.strip()` is truthy. -/
theorem stripTruthy_of_classify_ne_nil {cfg : Config} {text : String}
    (h : classify cfg text ≠ []) : stripTruthy text = true := by
  have hhash : ('#' : Char) ∈ lowerChars text.toList := by
    unfold classify at h
    by_cases hb : subIn "#biete".toList (lowerChars text.toList) = true
    · exact mem_of_subIn hb (by decide)
    · by_cases hs : subIn "#suche".toList (lowerChars text.toList) = true
      · exact mem_of_subIn hs (by decide)
      · rw [if_neg hb, if_neg hs] at h
        exact absurd rfl h
  have hmem : ('#' : Char) ∈ text.toList := hash_mem_of_mem_lower hhash
  have := pyStrip_ne_nil hmem (by decide)
  simpa [stripTruthy, List.isEmpty_iff] using this

/-- The marker occurs, case-insensitively, as a contiguous substring of the
text (substring of the characterwise-lowercased text). -/
def MarkerOccurs (marker text : String) : Prop :=
  ∃ pre post, pre ++ marker.toList ++ post = lowerChars text.toList

def firstIdxAux (needle : List Char) : List Char → Nat → Option Nat
  | [], i => if needle.isEmpty then some i else none
  | b :: bs, i =>
    if leadsWith needle (b :: bs) then some i else firstIdxAux needle bs (i + 1)

/-- Index of the first occurrence of `needle` in `hay`, if any. -/
def firstIdx (needle hay : List Char) : Option Nat :=
  firstIdxAux needle hay 0

/-- Spec-side reading of C2's ordering clause: the matched markers'
destinations ordered by the position of each marker's first occurrence in the
text. -/
def classifyFirstOcc (cfg : Config) (text : String) : List Int :=
  match firstIdx "#biete".toList (lowerChars text.toList),
      firstIdx "#suche".toList (lowerChars text.toList) with
  | none, none => []
  | some _, none => [cfg.bieteTopicId]
  | none, some _ => [cfg.sucheTopicId]
  | some i, some j =>
    if i ≤ j then [cfg.bieteTopicId, cfg.sucheTopicId]
    else [cfg.sucheTopicId, cfg.bieteTopicId]

/-- C2 counterexample: on the text `"#suche und #biete"` the code returns the
fixed configured order `[Biete, Suche] = [3, 4]`, while ordering by first
occurrence in the text would give `[Suche, Biete] = [4, 3]`. -/
theorem classify_not_first_occurrence :
    classify defaultConfig "#suche und #biete" = [3, 4] ∧
    classifyFirstOcc defaultConfig "#suche und #biete" = [4, 3] :=
  ⟨by decide, by decide⟩

/-- C2 (amended): `classify` returns the destination of every configured
marker occurring case-insensitively in the text, with duplicates collapsed
and no error on zero matches, but ordered by the fixed configured marker
order (Biete before Suche), not by first occurrence in the text. -/
theorem classify_characterization (cfg : Config) (text : String) :
    (∀ d, d ∈ classify cfg text ↔
      (d = cfg.bieteTopicId ∧ MarkerOccurs "#biete" text) ∨
      (d = cfg.sucheTopicId ∧ MarkerOccurs "#suche" text)) ∧
    (classify cfg text).Sublist [cfg.bieteTopicId, cfg.sucheTopicId] ∧
    (cfg.bieteTopicId ≠ cfg.sucheTopicId → (classify cfg text).Nodup) ∧
    (¬ MarkerOccurs "#biete" text → ¬ MarkerOccurs "#suche" text →
      classify cfg text = []) := by
  have hbiete : subIn "#biete".toList (lowerChars text.toList) = true ↔
      MarkerOccurs "#biete" text := subIn_iff _ _
  have hsuche : subIn "#suche".toList (lowerChars text.toList) = true ↔
      MarkerOccurs "#suche" text := subIn_iff _ _
  unfold classify
  by_cases hb : subIn "#biete".toList (lowerChars text.toList) = true <;>
    by_cases hs : subIn "#suche".toList (lowerChars text.toList) = true
  · rw [if_pos hb, if_pos hs]
    exact ⟨fun d => by simp [hbiete.mp hb, hsuche.mp hs],
      List.Sublist.refl _, fun hne => by simp [hne],
      fun hnb _ => absurd (hbiete.mp hb) hnb⟩
  · rw [if_pos hb, if_neg hs]
    exact ⟨fun d => by
        simp [hbiete.mp hb, show ¬ MarkerOccurs "#suche" text from
          fun hm => hs (hsuche.mpr hm)],
      (List.nil_sublist [cfg.sucheTopicId]).cons₂ _, fun hne => by simp,
      fun hnb _ => absurd (hbiete.mp hb) hnb⟩
  · rw [if_neg hb, if_pos hs]
    exact ⟨fun d => by
        simp [hsuche.mp hs, show ¬ MarkerOccurs "#biete" text from
          fun hm => hb (hbiete.mpr hm)],
      (List.Sublist.refl _).cons _, fun hne => by simp,
      fun _ hns => absurd (hsuche.mp hs) hns⟩
  · rw [if_neg hb, if_neg hs]
    exact ⟨fun d => by
        simp [show ¬ MarkerOccurs "#biete" text from
            fun hm => hb (hbiete.mpr hm),
          show ¬ MarkerOccurs "#suche" text from
            fun hm => hs (hsuche.mpr hm)],
      List.nil_sublist _, fun hne => List.nodup_nil, fun _ _ => rfl⟩

/-- Witness for C2: the marker is found case-insensitively (`#BIETE`), and a
marker-free text classifies to the empty list. -/
theorem classify_characterization_witness :
    3 ∈ classify defaultConfig "Ich #BIETE etwas" ∧
    classify defaultConfig "nichts" = [] :=
  ⟨((classify_characterization defaultConfig "Ich #BIETE etwas").1 3).mpr
      (Or.inl ⟨rfl, (subIn_iff _ _).mp (by decide)⟩),
    (classify_characterization defaultConfig "nichts").2.2.2
      (fun hm => absurd ((subIn_iff _ _).mpr hm) (by decide))
      (fun hm => absurd ((subIn_iff _ _).mpr hm) (by decide))⟩

/-- C1: the spec requires messages with no sender to be silently dropped like
other ingress rejections, and the core to raise nothing past its boundary
except the caught delivery calls.  The code instead logs "User is None!" and
then dereferences `user.first_name` (line 252), so a monitored-thread message
with `from_user = None` raises an `AttributeError` out of `handle_message`
(it is only caught by the library's error handler, external to the core).
This theorem evaluates the embedded handler at such a message. -/
theorem no_sender_message_raises :
    handle_message defaultConfig (fun _ => false)
      (some (bareMsg (-1003356712572) (some 2) none (some "#biete Rad") none))
      emptyStore 0 = .error .attributeError :=
  rfl

/-- C9: `get_active_topics_for_user` is idempotent — applied a second time to
the store it returned (same user, same clock), it returns the same topics and
the same store; in particular the lazy deletion of an expired entry is itself
idempotent. -/
theorem get_idempotent (cfg : Config) (s : Store) (u : Int) (now : Nat) :
    get_active_topics_for_user cfg
        (get_active_topics_for_user cfg s u now).2 u now =
      get_active_topics_for_user cfg s u now := by
  cases h : s u with
  | none => simp [get_active_topics_for_user, h]
  | some e =>
    by_cases hw : cfg.window < now - e.timestamp
    · simp [get_active_topics_for_user, h, hw]
    · simp [get_active_topics_for_user, h, hw]

/-- C4: the context read contract — no entry gives the empty list and an
unchanged store; an entry strictly older than the window is deleted and the
empty list returned; otherwise the stored topics are returned with the store
untouched (no TTL renewal), so an entry whose age equals the window exactly
is still live. -/
theorem get_contract (cfg : Config) (s : Store) (u : Int) (now : Nat) :
    (s u = none → get_active_topics_for_user cfg s u now = ([], s)) ∧
    (∀ e, s u = some e → cfg.window < now - e.timestamp →
      get_active_topics_for_user cfg s u now =
        ([], fun v => if v = u then none else s v)) ∧
    (∀ e, s u = some e → now - e.timestamp ≤ cfg.window →
      get_active_topics_for_user cfg s u now = (e.topics, s)) := by
  refine ⟨fun h => by simp [get_active_topics_for_user, h],
    fun e h hw => by simp [get_active_topics_for_user, h, hw],
    fun e h hw => by
      simp [get_active_topics_for_user, h, Nat.not_lt.mpr hw]⟩

/-- Witness for C4 at the window boundary: an entry written at time 10 and
read at time 15 with window 5 is still live and left untouched. -/
theorem get_contract_witness :
    get_active_topics_for_user defaultConfig
        (update_user_context emptyStore 7 [3] 10) 7 15 =
      ([3], update_user_context emptyStore 7 [3] 10) :=
  (get_contract defaultConfig (update_user_context emptyStore 7 [3] 10)
    7 15).2.2 ⟨[3], 10⟩ rfl (by decide)

theorem photo_isEmpty_iff (m : Message) :
    m.photo.isEmpty = !m.photo.getLast?.isSome := by
  cases h : m.photo with
  | nil => rfl
  | cons a as =>
    simp [List.getLast?_isSome.mpr (List.cons_ne_nil a as)]

/-- The media-kind selection succeeds exactly when `has_media` holds. -/
theorem mediaPayload_isSome (m : Message) (cap : String) :
    (mediaPayload m cap).isSome = has_media m := by
  unfold mediaPayload has_media
  rw [photo_isEmpty_iff]
  cases m.photo.getLast? <;> cases m.video <;> cases m.document <;>
    cases m.audio <;> cases m.voice <;> cases m.videoNote <;>
      cases m.sticker <;> rfl

/-- The media payload send is always the first recorded event. -/
theorem forward_head (cfg : Config) (F : SendReq → Bool) (m : Message)
    (t : Int) (link : String) (p : SendPayload)
    (hmp : mediaPayload m (captionText m link) = some p) :
    ∃ rest, forward_media_to_topic cfg F m t link =
      (⟨cfg.groupId, t, p⟩, F ⟨cfg.groupId, t, p⟩) :: rest := by
  unfold forward_media_to_topic
  rw [hmp]
  cases p <;> dsimp only <;>
    first
      | exact ⟨_, rfl⟩
      | (split
         · exact ⟨_, rfl⟩
         · exact ⟨_, rfl⟩)

theorem forward_threadId (cfg : Config) (F : SendReq → Bool) (m : Message)
    (t : Int) (link : String) :
    ∀ e ∈ forward_media_to_topic cfg F m t link, e.1.threadId = t := by
  unfold forward_media_to_topic
  cases mediaPayload m (captionText m link)
  · simp
  · rename_i p
    cases p <;> dsimp only <;> (try split) <;> (try split) <;> simp

theorem forward_ne_nil (cfg : Config) (F : SendReq → Bool) (m : Message)
    (t : Int) (link : String) (h : has_media m = true) :
    forward_media_to_topic cfg F m t link ≠ [] := by
  have hS : (mediaPayload m (captionText m link)).isSome = true := by
    rw [mediaPayload_isSome]; exact h
  obtain ⟨p, hp⟩ := Option.isSome_iff_exists.mp hS
  obtain ⟨rest, hr⟩ := forward_head cfg F m t link p hp
  rw [hr]
  exact List.cons_ne_nil _ _

/-- The media payload send itself is attempted no matter which sends fail. -/
theorem forward_payload_attempted (cfg : Config) (F : SendReq → Bool)
    (m : Message) (t : Int) (link : String) (p : SendPayload)
    (hmp : mediaPayload m (captionText m link) = some p) :
    (⟨cfg.groupId, t, p⟩ : SendReq) ∈
      (forward_media_to_topic cfg F m t link).map Prod.fst := by
  obtain ⟨rest, hr⟩ := forward_head cfg F m t link p hmp
  rw [hr]
  exact List.mem_map.mpr ⟨_, List.mem_cons_self _ _, rfl⟩

theorem captionText_eq_base (m : Message) (link : String)
    (h : hasCaption m = false) : captionText m link = "📨 Von " ++ link := by
  unfold captionText
  unfold hasCaption at h
  cases hc : m.caption with
  | none => rfl
  | some s =>
    rw [hc] at h
    simp only [decide_eq_false_iff_not, Decidable.not_not] at h
    simp [h]

theorem dispatch_threadId (cfg : Config) (F : SendReq → Bool) (m : Message)
    (link : String) (dests : List Int) :
    ∀ e ∈ dispatchEvents cfg F m link dests, e.1.threadId ∈ dests := by
  intro e he
  unfold dispatchEvents at he
  rcases List.mem_append.mp he with h | h
  · split at h
    · rcases List.mem_map.mp h with ⟨t, ht, rfl⟩
      simpa [mainTextReq] using ht
    · simp at h
  · split at h
    · rcases List.mem_flatMap.mp h with ⟨t, ht, hf⟩
      rw [forward_threadId cfg F m t link e hf]
      exact ht
    · simp at h

theorem dispatch_nil (cfg : Config) (F : SendReq → Bool) (m : Message)
    (link : String) : dispatchEvents cfg F m link [] = [] := by
  unfold dispatchEvents
  split <;> split <;> rfl

theorem dispatch_covers (cfg : Config) (F : SendReq → Bool) (m : Message)
    (link : String) (dests : List Int)
    (h : stripTruthy (msgText m) = true ∨ has_media m = true) :
    ∀ t ∈ dests, ∃ e ∈ dispatchEvents cfg F m link dests,
      e.1.threadId = t := by
  intro t ht
  unfold dispatchEvents
  rcases h with h | h
  · refine ⟨(mainTextReq cfg m link t, F (mainTextReq cfg m link t)),
      List.mem_append.mpr (Or.inl ?_), rfl⟩
    rw [if_pos h]
    exact List.mem_map.mpr ⟨t, ht, rfl⟩
  · obtain ⟨e, he⟩ :=
      List.exists_mem_of_ne_nil _ (forward_ne_nil cfg F m t link h)
    refine ⟨e, List.mem_append.mpr (Or.inr ?_),
      forward_threadId cfg F m t link e he⟩
    rw [if_pos h]
    exact List.mem_flatMap.mpr ⟨t, ht, he⟩

/-- C10: the keyword destination list is a sublist of the configured pair
`[Biete, Suche]` (so it contains at most those two destinations, in the fixed
configured order), and — the two configured destinations being distinct — it
is duplicate-free, and whenever both markers are present it is exactly
`[Biete, Suche]`, regardless of where the markers occur in the text. -/
theorem classify_invariants (cfg : Config) (text : String) :
    (classify cfg text).Sublist [cfg.bieteTopicId, cfg.sucheTopicId] ∧
    (cfg.bieteTopicId ≠ cfg.sucheTopicId →
      (classify cfg text).Nodup ∧
      (cfg.bieteTopicId ∈ classify cfg text →
        cfg.sucheTopicId ∈ classify cfg text →
        classify cfg text = [cfg.bieteTopicId, cfg.sucheTopicId])) := by
  unfold classify
  by_cases hb : subIn "#biete".toList (lowerChars text.toList) = true <;>
    by_cases hs : subIn "#suche".toList (lowerChars text.toList) = true
  · rw [if_pos hb, if_pos hs]
    exact ⟨List.Sublist.refl _, fun hne => ⟨by simp [hne], fun _ _ => rfl⟩⟩
  · rw [if_pos hb, if_neg hs]
    exact ⟨(List.nil_sublist [cfg.sucheTopicId]).cons₂ _,
      fun hne => ⟨by simp, fun _ hm => absurd (by simpa using hm) hne.symm⟩⟩
  · rw [if_neg hb, if_pos hs]
    exact ⟨(List.Sublist.refl _).cons _,
      fun hne => ⟨by simp, fun hm _ => absurd (by simpa using hm) hne⟩⟩
  · rw [if_neg hb, if_neg hs]
    exact ⟨List.nil_sublist _,
      fun hne => ⟨List.nodup_nil, fun hm _ => by simp at hm⟩⟩

/-- Witness for C10 on a text carrying both markers in reverse order. -/
theorem classify_invariants_witness :
    (classify defaultConfig "#suche und #biete").Nodup ∧
    classify defaultConfig "#suche und #biete" = [3, 4] := by
  have h := (classify_invariants defaultConfig "#suche und #biete").2
    (by decide)
  exact ⟨h.1, h.2 (by decide) (by decide)⟩

theorem get_store_frame (cfg : Config) (s : Store) (u : Int) (now : Nat) :
    (∀ v, v ≠ u → (get_active_topics_for_user cfg s u now).2 v = s v) ∧
    ((get_active_topics_for_user cfg s u now).2 u = s u ∨
      (get_active_topics_for_user cfg s u now).2 u = none) := by
  cases h : s u with
  | none => simp [get_active_topics_for_user, h]
  | some e =>
    by_cases hw : cfg.window < now - e.timestamp
    · constructor
      · intro v hv
        simp [get_active_topics_for_user, h, hw, hv]
      · right
        simp [get_active_topics_for_user, h, hw]
    · simp [get_active_topics_for_user, h, hw]

theorem handle_message_wrong_chat (cfg : Config) (F : SendReq → Bool)
    (m : Message) (store : Store) (now : Nat) (h : m.chatId ≠ cfg.groupId) :
    handle_message cfg F (some m) store now = .ok ([], store) := by
  unfold handle_message
  simp [h]

theorem handle_message_wrong_thread (cfg : Config) (F : SendReq → Bool)
    (m : Message) (store : Store) (now : Nat)
    (h : m.threadId ≠ some cfg.hauptTopicId) :
    handle_message cfg F (some m) store now = .ok ([], store) := by
  unfold handle_message
  by_cases h1 : m.chatId = cfg.groupId <;> simp [h1, h]

theorem handle_message_keyword (cfg : Config) (F : SendReq → Bool)
    (m : Message) (u : User) (store : Store) (now : Nat)
    (hchat : m.chatId = cfg.groupId)
    (hthread : m.threadId = some cfg.hauptTopicId)
    (hu : m.fromUser = some u)
    (hk : classify cfg (msgText m) ≠ []) :
    handle_message cfg F (some m) store now =
      .ok (dispatchEvents cfg F m (userLink u) (classify cfg (msgText m)),
        update_user_context store u.id (classify cfg (msgText m)) now) := by
  unfold handle_message
  simp [hchat, hthread, hu, hk]

theorem handle_message_context (cfg : Config) (F : SendReq → Bool)
    (m : Message) (u : User) (store : Store) (now : Nat)
    (hchat : m.chatId = cfg.groupId)
    (hthread : m.threadId = some cfg.hauptTopicId)
    (hu : m.fromUser = some u)
    (hk : classify cfg (msgText m) = [])
    (hcontent : has_media m = true ∨ stripTruthy (msgText m) = true) :
    handle_message cfg F (some m) store now =
      .ok (dispatchEvents cfg F m (userLink u)
          (get_active_topics_for_user cfg store u.id now).1,
        (get_active_topics_for_user cfg store u.id now).2) := by
  have hor : (has_media m || stripTruthy (msgText m)) = true := by
    rcases hcontent with h | h <;> simp [h]
  unfold handle_message
  by_cases ha : (get_active_topics_for_user cfg store u.id now).1 = []
  · simp [hchat, hthread, hu, hk, hor, ha, dispatch_nil]
  · simp [hchat, hthread, hu, hk, hor, ha]

theorem handle_message_blank (cfg : Config) (F : SendReq → Bool)
    (m : Message) (u : User) (store : Store) (now : Nat)
    (hchat : m.chatId = cfg.groupId)
    (hthread : m.threadId = some cfg.hauptTopicId)
    (hu : m.fromUser = some u)
    (hk : classify cfg (msgText m) = [])
    (hm : has_media m = false) (hs : stripTruthy (msgText m) = false) :
    handle_message cfg F (some m) store now = .ok ([], store) := by
  unfold handle_message
  simp [hchat, hthread, hu, hk, hm, hs]

/-- C5: on a monitored-thread message whose text matches at least one marker,
`handle_message` dispatches to exactly the keyword destinations and then
overwrites the sender's context entry with exactly those destinations and the
current time — a full overwrite of whatever entry the sender had, with no
merging — while every other sender's entry is unchanged. -/
theorem keyword_route_overwrites_context (cfg : Config) (F : SendReq → Bool)
    (m : Message) (u : User) (store : Store) (now : Nat)
    (hchat : m.chatId = cfg.groupId)
    (hthread : m.threadId = some cfg.hauptTopicId)
    (hu : m.fromUser = some u)
    (hk : classify cfg (msgText m) ≠ []) :
    ∃ evs, handle_message cfg F (some m) store now =
        .ok (evs,
          update_user_context store u.id (classify cfg (msgText m)) now) ∧
      (∀ e ∈ evs, e.1.threadId ∈ classify cfg (msgText m)) ∧
      (∀ t ∈ classify cfg (msgText m), ∃ e ∈ evs, e.1.threadId = t) ∧
      update_user_context store u.id (classify cfg (msgText m)) now u.id =
        some ⟨classify cfg (msgText m), now⟩ ∧
      (∀ v, v ≠ u.id →
        update_user_context store u.id (classify cfg (msgText m)) now v =
          store v) :=
  ⟨dispatchEvents cfg F m (userLink u) (classify cfg (msgText m)),
    handle_message_keyword cfg F m u store now hchat hthread hu hk,
    dispatch_threadId cfg F m (userLink u) _,
    dispatch_covers cfg F m (userLink u) _
      (Or.inl (stripTruthy_of_classify_ne_nil hk)),
    by simp [update_user_context],
    fun v hv => by simp [update_user_context, hv]⟩

/-- Scenario A message: `"#biete Selling a bike"` from sender 7 in the
monitored chat and topic. -/
def msgA : Message :=
  bareMsg (-1003356712572) (some 2) (some ⟨7, "A"⟩)
    (some "#biete Selling a bike") none

/-- Witness for C5 at scenario A. -/
theorem keyword_route_overwrites_context_witness :
    ∃ evs, handle_message defaultConfig (fun _ => false) (some msgA)
        emptyStore 0 =
      .ok (evs, update_user_context emptyStore 7
        (classify defaultConfig (msgText msgA)) 0) := by
  obtain ⟨evs, h1, -⟩ := keyword_route_overwrites_context defaultConfig
    (fun _ => false) msgA ⟨7, "A"⟩ emptyStore 0 rfl rfl rfl (by decide)
  exact ⟨evs, h1⟩

/-- C6: on a monitored-thread message with no keyword match but with content
(non-blank text or media), `handle_message` dispatches to exactly the
destinations returned by the context read and performs no context write: the
resulting store is exactly the one returned by `get_active_topics_for_user`,
so other senders' entries are untouched and the sender's own entry is either
unchanged or lazily deleted (when expired); an empty context read produces no
sends. -/
theorem context_route_no_write (cfg : Config) (F : SendReq → Bool)
    (m : Message) (u : User) (store : Store) (now : Nat)
    (hchat : m.chatId = cfg.groupId)
    (hthread : m.threadId = some cfg.hauptTopicId)
    (hu : m.fromUser = some u)
    (hk : classify cfg (msgText m) = [])
    (hcontent : has_media m = true ∨ stripTruthy (msgText m) = true) :
    ∃ evs, handle_message cfg F (some m) store now =
        .ok (evs, (get_active_topics_for_user cfg store u.id now).2) ∧
      (∀ e ∈ evs,
        e.1.threadId ∈ (get_active_topics_for_user cfg store u.id now).1) ∧
      (∀ t ∈ (get_active_topics_for_user cfg store u.id now).1,
        ∃ e ∈ evs, e.1.threadId = t) ∧
      ((get_active_topics_for_user cfg store u.id now).1 = [] → evs = []) ∧
      (∀ v, v ≠ u.id →
        (get_active_topics_for_user cfg store u.id now).2 v = store v) ∧
      ((get_active_topics_for_user cfg store u.id now).2 u.id = store u.id ∨
        (get_active_topics_for_user cfg store u.id now).2 u.id = none) :=
  ⟨dispatchEvents cfg F m (userLink u)
      (get_active_topics_for_user cfg store u.id now).1,
    handle_message_context cfg F m u store now hchat hthread hu hk hcontent,
    dispatch_threadId cfg F m (userLink u) _,
    dispatch_covers cfg F m (userLink u) _ hcontent.symm,
    fun ha => by rw [ha]; exact dispatch_nil cfg F m (userLink u),
    (get_store_frame cfg store u.id now).1,
    (get_store_frame cfg store u.id now).2⟩

/-- Scenario B message: `"still available"`, no marker, from sender 7. -/
def msgB : Message :=
  bareMsg (-1003356712572) (some 2) (some ⟨7, "A"⟩)
    (some "still available") none

/-- Witness for C6 at scenario B: follow-up within the window is routed via
the stored context and the store is returned unchanged by the read. -/
theorem context_route_no_write_witness :
    ∃ evs, handle_message defaultConfig (fun _ => false) (some msgB)
        (update_user_context emptyStore 7 [3] 0) 3 =
      .ok (evs, (get_active_topics_for_user defaultConfig
        (update_user_context emptyStore 7 [3] 0) 7 3).2) := by
  obtain ⟨evs, h1, -⟩ := context_route_no_write defaultConfig
    (fun _ => false) msgB ⟨7, "A"⟩ (update_user_context emptyStore 7 [3] 0) 3
    rfl rfl rfl (by decide) (Or.inr (by decide))
  exact ⟨evs, h1⟩

/-- C7: dispatch failure isolation — for an arbitrary set of failing sends,
(1) the handler still runs to completion returning `.ok` (a delivery failure
never propagates), (2) every destination's main text send is attempted
whenever the text is non-blank, independent of which sends fail, and (3)
every destination's media payload send is attempted, independent of which
sends fail — including when the text send to that same destination failed. -/
theorem route_fault_isolation (cfg : Config) (F : SendReq → Bool)
    (m : Message) (u : User) (store : Store) (now : Nat) (link : String)
    (dests : List Int) (hu : m.fromUser = some u) :
    (∃ evs store2,
      handle_message cfg F (some m) store now = .ok (evs, store2)) ∧
    (∀ t ∈ dests, stripTruthy (msgText m) = true →
      mainTextReq cfg m link t ∈
        (dispatchEvents cfg F m link dests).map Prod.fst) ∧
    (∀ t ∈ dests, ∀ p, mediaPayload m (captionText m link) = some p →
      (⟨cfg.groupId, t, p⟩ : SendReq) ∈
        (dispatchEvents cfg F m link dests).map Prod.fst) := by
  refine ⟨?_, ?_, ?_⟩
  · by_cases h1 : m.chatId = cfg.groupId
    · by_cases h2 : m.threadId = some cfg.hauptTopicId
      · by_cases hk : classify cfg (msgText m) = []
        · cases hmB : has_media m
          · cases hsB : stripTruthy (msgText m)
            · exact ⟨[], store,
                handle_message_blank cfg F m u store now h1 h2 hu hk hmB hsB⟩
            · exact ⟨_, _, handle_message_context cfg F m u store now
                h1 h2 hu hk (Or.inr hsB)⟩
          · exact ⟨_, _, handle_message_context cfg F m u store now
              h1 h2 hu hk (Or.inl hmB)⟩
        · exact ⟨_, _,
            handle_message_keyword cfg F m u store now h1 h2 hu hk⟩
      · exact ⟨[], store, handle_message_wrong_thread cfg F m store now h2⟩
    · exact ⟨[], store, handle_message_wrong_chat cfg F m store now h1⟩
  · intro t ht hstrip
    unfold dispatchEvents
    rw [if_pos hstrip]
    exact List.mem_map.mpr
      ⟨(mainTextReq cfg m link t, F (mainTextReq cfg m link t)),
        List.mem_append.mpr (Or.inl (List.mem_map.mpr ⟨t, ht, rfl⟩)), rfl⟩
  · intro t ht p hp
    have hmedia : has_media m = true := by
      rw [← mediaPayload_isSome m (captionText m link), hp]
      rfl
    unfold dispatchEvents
    rw [if_pos hmedia]
    rcases List.mem_map.mp (forward_payload_attempted cfg F m t link p hp)
      with ⟨e, he, heq⟩
    exact List.mem_map.mpr
      ⟨e, List.mem_append.mpr (Or.inr (List.mem_flatMap.mpr ⟨t, ht, he⟩)),
        heq⟩

/-- Scenario E message: a photo with caption `"#suche looking for this"`. -/
def msgE : Message :=
  { bareMsg (-1003356712572) (some 2) (some ⟨9, "E"⟩) none
      (some "#suche looking for this") with
    photo := ["p1"] }

/-- The failure oracle that fails every plain text send (and nothing else). -/
def failTextSends : SendReq → Bool := fun r =>
  match r.payload with
  | .text _ => true
  | _ => false

/-- Witness for C7 at scenario E: with every text send failing, the handler
completes and the photo send to the Suche topic is still attempted. -/
theorem route_fault_isolation_witness :
    (∃ evs store2, handle_message defaultConfig failTextSends (some msgE)
        emptyStore 0 = .ok (evs, store2)) ∧
    (⟨-1003356712572, 4, .photo "p1"
        "📨 Von [E](tg://user?id=9):\n\n#suche looking for this"⟩ : SendReq) ∈
      (dispatchEvents defaultConfig failTextSends msgE
        "[E](tg://user?id=9)" [4]).map Prod.fst := by
  have h := route_fault_isolation defaultConfig failTextSends msgE ⟨9, "E"⟩
    emptyStore 0 "[E](tg://user?id=9)" [4] rfl
  exact ⟨h.1, h.2.2 4 (by decide)
    (.photo "p1" "📨 Von [E](tg://user?id=9):\n\n#suche looking for this")
    rfl⟩

/-- Every caption-capable payload produced by the media-kind selection
carries exactly the caption it was given. -/
theorem mediaPayload_caption (m : Message) (cap : String) (p : SendPayload)
    (hmp : mediaPayload m cap = some p) :
    ∀ fid c, (p = .photo fid c ∨ p = .video fid c ∨ p = .document fid c ∨
      p = .audio fid c ∨ p = .voice fid c) → c = cap := by
  unfold mediaPayload at hmp
  repeat' split at hmp
  all_goals
    first
      | exact Option.noConfusion hmp
      | (injection hmp with h
         subst h
         rintro fid c (h | h | h | h | h) <;>
           first
             | (injection h with h1 h2; exact h2.symm)
             | simp at h)

/-- C3 (amended): every caption-capable media send (photo, video, document,
audio, voice) dispatched by `forward_media_to_topic` carries as its caption
exactly `captionText` — the attribution header, extended with `":\n\n"` and
the original caption whenever the message has a non-empty caption; only for
caption-less messages is it exactly the attribution header, as the claim
states. -/
theorem media_caption_attribution (cfg : Config) (F : SendReq → Bool)
    (m : Message) (t : Int) (link : String) :
    (∀ e ∈ forward_media_to_topic cfg F m t link, ∀ fid c,
      (e.1.payload = .photo fid c ∨ e.1.payload = .video fid c ∨
        e.1.payload = .document fid c ∨ e.1.payload = .audio fid c ∨
        e.1.payload = .voice fid c) → c = captionText m link) ∧
    (hasCaption m = false →
      captionText m link = "📨 Von " ++ link) := by
  constructor
  · intro e he fid c hc
    unfold forward_media_to_topic at he
    cases hmp : mediaPayload m (captionText m link) <;> rw [hmp] at he
    · simp at he
    · rename_i p
      have hcap := mediaPayload_caption m (captionText m link) p hmp
      cases p <;> dsimp only at he <;>
        (try split at he) <;> (try split at he) <;>
          simp only [List.mem_singleton, List.mem_cons, List.not_mem_nil,
            or_false] at he <;>
          first
            | (subst he; exact hcap fid c hc)
            | (rcases he with rfl | rfl
               · exact hcap fid c hc
               · simp at hc)
  · exact captionText_eq_base m link

/-- The scenario message for the C3 counterexample: a photo with caption
`"#biete x"` in the monitored thread. -/
def msgC3 : Message :=
  { bareMsg (-1003356712572) (some 2) (some ⟨1, "A"⟩) none (some "#biete x")
      with photo := ["f1"] }

/-- C3 counterexample: the dispatched photo is sent with a caption equal to
the attribution header plus the original caption, not exactly the
attribution header. -/
theorem media_caption_counterexample :
    routeEvents defaultConfig (fun _ => false) (some msgC3) emptyStore 0 =
      [(⟨-1003356712572, 3,
          .text "📨 Von [A](tg://user?id=1):\n\n#biete x"⟩, false),
        (⟨-1003356712572, 3,
          .photo "f1" "📨 Von [A](tg://user?id=1):\n\n#biete x"⟩, false)] ∧
    "📨 Von [A](tg://user?id=1):\n\n#biete x" ≠ "📨 Von [A](tg://user?id=1)" :=
  ⟨by decide, by decide⟩

/-- A caption-less voice message, for the C3 witness. -/
def msgVoice : Message :=
  { bareMsg (-1003356712572) (some 2) (some ⟨1, "A"⟩) none none with
    voice := some "w1" }

/-- Witness for C3 on a caption-less voice message: its send carries exactly
the attribution header as caption. -/
theorem media_caption_attribution_witness :
    ∀ e ∈ forward_media_to_topic defaultConfig (fun _ => false)
      msgVoice 3 "L", ∀ fid c,
      (e.1.payload = .photo fid c ∨ e.1.payload = .video fid c ∨
        e.1.payload = .document fid c ∨ e.1.payload = .audio fid c ∨
        e.1.payload = .voice fid c) → c = "📨 Von L" := by
  intro e he fid c hc
  have h := media_caption_attribution defaultConfig (fun _ => false)
    msgVoice 3 "L"
  exact (h.1 e he fid c hc).trans (h.2 rfl)

/-- C8: a dispatched `video_note` payload is sent without a caption and, when
the payload send succeeds, is followed by a separate text message to the same
destination carrying the attribution header (the message having no caption,
as video notes cannot carry one at the transport level); a dispatched
`sticker` is sent alone, and the follow-up text message is sent if and only
if the original message has a non-empty caption. -/
theorem video_note_sticker_followup (cfg : Config) (F : SendReq → Bool)
    (m : Message) (t : Int) (link : String)
    (hphoto : m.photo = []) (hvideo : m.video = none)
    (hdoc : m.document = none) (haudio : m.audio = none)
    (hvoice : m.voice = none) :
    (∀ v, m.videoNote = some v → hasCaption m = false →
      F ⟨cfg.groupId, t, .videoNote v⟩ = false →
      forward_media_to_topic cfg F m t link =
        [(⟨cfg.groupId, t, .videoNote v⟩, false),
          (⟨cfg.groupId, t, .text ("📨 Von " ++ link)⟩,
            F ⟨cfg.groupId, t, .text ("📨 Von " ++ link)⟩)]) ∧
    (∀ s, m.videoNote = none → m.sticker = some s →
      F ⟨cfg.groupId, t, .sticker s⟩ = false →
      forward_media_to_topic cfg F m t link =
        (⟨cfg.groupId, t, .sticker s⟩, false) ::
          (if hasCaption m then
            [(⟨cfg.groupId, t, .text (captionText m link)⟩,
              F ⟨cfg.groupId, t, .text (captionText m link)⟩)]
          else [])) := by
  constructor
  · intro v hvn hcap hF
    have hmp : mediaPayload m (captionText m link) = some (.videoNote v) := by
      unfold mediaPayload
      rw [hphoto, hvideo, hdoc, haudio, hvoice, hvn]
      rfl
    have hcapt : captionText m link = "📨 Von " ++ link :=
      captionText_eq_base m link hcap
    unfold forward_media_to_topic
    rw [hmp]
    dsimp only
    rw [if_neg (by simp [hF]), hF, hcapt]
  · intro s hvn hst hF
    have hmp : mediaPayload m (captionText m link) = some (.sticker s) := by
      unfold mediaPayload
      rw [hphoto, hvideo, hdoc, haudio, hvoice, hvn, hst]
      rfl
    unfold forward_media_to_topic
    rw [hmp]
    dsimp only
    rw [if_neg (by simp [hF]), hF]

/-- A caption-less video-note message. -/
def msgVN : Message :=
  { bareMsg (-1003356712572) (some 2) (some ⟨5, "V"⟩) none none with
    videoNote := some "v1" }

/-- A sticker message carrying the caption `"c"`. -/
def msgST : Message :=
  { bareMsg (-1003356712572) (some 2) (some ⟨5, "V"⟩) none (some "c") with
    sticker := some "s1" }

/-- Witness for C8 on concrete video-note and sticker messages. -/
theorem video_note_sticker_followup_witness :
    forward_media_to_topic defaultConfig (fun _ => false) msgVN 3 "L" =
      [(⟨-1003356712572, 3, .videoNote "v1"⟩, false),
        (⟨-1003356712572, 3, .text "📨 Von L"⟩, false)] ∧
    forward_media_to_topic defaultConfig (fun _ => false) msgST 3 "L" =
      (⟨-1003356712572, 3, .sticker "s1"⟩, false) ::
        (if hasCaption msgST then
          [(⟨-1003356712572, 3, .text (captionText msgST "L")⟩, false)]
        else []) :=
  ⟨(video_note_sticker_followup defaultConfig (fun _ => false) msgVN 3 "L"
      rfl rfl rfl rfl rfl).1 "v1" rfl rfl rfl,
    (video_note_sticker_followup defaultConfig (fun _ => false) msgST 3 "L"
      rfl rfl rfl rfl rfl).2 "s1" rfl rfl rfl⟩

end Unko
